/- Verification of the retrieval-and-reconciliation pipeline of the
   scinterest repository (src/TOOLS/GET-REF/getref.py and
   src/TOOLS/GET-REF/analyze_refs.py).

   The Python source is shallowly embedded: duck-typed / possibly-missing
   attributes become Option-valued fields, Python exceptions become Option
   or Except results, and the small set of Python string and integer
   primitives used by the source is re-implemented over List Char so that
   every definition is executable and kernel-reducible. -/
import Mathlib

/- ### Python string and integer primitives

   These model exactly the operations the source uses:
   str.strip(), str.split(sep), str.split(), str.lower(), the substring
   test `pat in s`, `'-'.join`-style joins, f-string rendering of None,
   and int(str) on the ASCII fragment (optional surrounding whitespace,
   optional single sign, nonempty digit run; this is the fragment the
   repository's inputs exercise). -/

/-- Model of Python `str.strip()` on the characters of a string. -/
def stripChars (cs : List Char) : List Char :=
  ((cs.dropWhile Char.isWhitespace).reverse.dropWhile Char.isWhitespace).reverse

/-- Model of Python `str.strip()`. -/
def pyStrip (s : String) : String := String.mk (stripChars s.data)

/-- Split a character list at every character satisfying `p`, keeping empty
fragments, as Python `str.split(sep)` does for a one-character separator. -/
def splitPredAux (p : Char → Bool) : List Char → List Char → List (List Char)
  | [], acc => [acc.reverse]
  | c :: rest, acc =>
    if p c then acc.reverse :: splitPredAux p rest []
    else splitPredAux p rest (c :: acc)

/-- Split a string at every character satisfying `p`, keeping empty fragments. -/
def pySplitPred (p : Char → Bool) (s : String) : List String :=
  (splitPredAux p s.data []).map (fun cs => String.mk cs)

/-- Model of Python `str.split(sep)` for a one-character separator
(empty fragments are kept). -/
def pySplitChar (sep : Char) (s : String) : List String :=
  pySplitPred (fun c => c == sep) s

/-- Model of Python `str.split()` with no argument: split on whitespace
runs, dropping empty fragments. -/
def pyWordSplit (s : String) : List String :=
  (pySplitPred Char.isWhitespace s).filter (fun w => w != "")

/-- Does `pre` lead the list `s` (prefix test on character lists)? -/
def leadsWith : List Char → List Char → Bool
  | [], _ => true
  | _ :: _, [] => false
  | a :: as, b :: bs => (a == b) && leadsWith as bs

/-- Fuel-driven core of a multi-character split, scanning left to right and
consuming non-overlapping occurrences of `sep`, as Python `str.split(sep)`
does for a multi-character separator. -/
def splitOnFuel (sep : List Char) : Nat → List Char → List Char → List (List Char)
  | _, [], acc => [acc.reverse]
  | 0, s, acc => [acc.reverse ++ s]
  | fuel + 1, c :: rest, acc =>
    if leadsWith sep (c :: rest) then
      acc.reverse :: splitOnFuel sep fuel (List.drop (sep.length - 1) rest) []
    else
      splitOnFuel sep fuel rest (c :: acc)

/-- Model of Python `str.split(sep)` for a nonempty multi-character
separator (empty fragments are kept). -/
def pySplitOn (sep : String) (s : String) : List String :=
  (splitOnFuel sep.data s.data.length s.data []).map (fun cs => String.mk cs)

/-- Model of the Python membership test `c in s` for a single character. -/
def pyContainsChar (s : String) (c : Char) : Bool :=
  s.data.any (fun d => d == c)

/-- Model of the Python substring test `pat in s` for a nonempty pattern:
the split at `pat` has more than one fragment exactly when `pat` occurs. -/
def pyHasSub (s pat : String) : Bool :=
  (pySplitOn pat s).length != 1

/-- Model of Python `str.lower()` (ASCII case folding, which is all the
source's document-type strings need). -/
def pyLower (s : String) : String := String.mk (s.data.map Char.toLower)

/-- Rendering of an optional string inside a Python f-string: `None`
renders as the four characters "None". -/
def fstr (o : Option String) : String :=
  match o with
  | none => "None"
  | some s => s

/-- Python truthiness of an optional string: `None` and the empty string
are falsy. -/
def truthyS (o : Option String) : Bool :=
  match o with
  | none => false
  | some s => s != ""

/-- Python `x if x else None` on an optional string: a falsy value is
replaced by `None`. -/
def falsyToNone (o : Option String) : Option String :=
  match o with
  | none => none
  | some s => if s = "" then none else some s

/-- Decimal value of a digit run. -/
def digitsVal (cs : List Char) : Nat :=
  cs.foldl (fun n c => n * 10 + (c.toNat - 48)) 0

/-- Model of Python `int(str)` on the ASCII fragment: surrounding
whitespace is stripped, a single leading sign is allowed, and the rest
must be a nonempty digit run; anything else raises, modelled as `none`. -/
def pyIntOfString (s : String) : Option Int :=
  let cs := stripChars s.data
  match cs with
  | [] => none
  | c :: rest =>
    if c = '-' then
      if rest ≠ [] ∧ rest.all Char.isDigit then some (-(Int.ofNat (digitsVal rest)))
      else none
    else if c = '+' then
      if rest ≠ [] ∧ rest.all Char.isDigit then some (Int.ofNat (digitsVal rest))
      else none
    else
      if cs.all Char.isDigit then some (Int.ofNat (digitsVal cs))
      else none

/-- Python `s.split('-')[0]`: the leading component of a string before the
first dash (the whole string when there is no dash). -/
def leadComp (s : String) : String :=
  String.mk (s.data.takeWhile (fun c => c != '-'))

/- ### Data model (getref.py)

   A search-result stub is a pybliometrics named tuple whose attributes
   may each be None; `attr if hasattr(result, attr) else None` therefore
   collapses to an Option-valued field.  The unified publication record is
   the dict literal built by `extract_from_search_result` /
   `get_full_details`. -/

/-- One entry of the `authors` list of a publication record
(Python dict with keys name, surname, given_name, author_id, affiliation;
any of them may be None). -/
structure Author where
  name : Option String
  surname : Option String
  given_name : Option String
  author_id : Option String
  affiliation : Option String
deriving DecidableEq, Inhabited

/-- A search-result stub as consumed by getref.py (fields of the
pybliometrics search named tuple that the source reads). -/
structure SearchResult where
  eid : Option String
  doi : Option String
  title : Option String
  publicationName : Option String
  coverDate : Option String
  volume : Option String
  issueIdentifier : Option String
  pageRange : Option String
  citedby_count : Option String
  aggregationType : Option String
  issn : Option String
  source_id : Option String
  author_names : Option String
deriving DecidableEq, Inhabited

/-- The unified publication record (the dict literal of getref.py). -/
structure Record where
  eid : Option String
  doi : Option String
  title : Option String
  abstract : Option String
  journal : Option String
  year : Option Int
  date : Option String
  volume : Option String
  issue : Option String
  pages : Option String
  citation_count : Int
  document_type : Option String
  issn : Option String
  isbn : Option String
  publisher : Option String
  source_id : Option String
  keywords : List String
  authors : List Author
  url : String
deriving DecidableEq, Inhabited

/- ### Shared field parsers (getref.py lines 137, 142, 219, 226) -/

/-- Python `int(cd.split('-')[0]) if cd else None` wrapped in the
surrounding try: the outer `none` is the raised ValueError, the inner
option is the year field. -/
def parseYearOfCoverDate (cd : Option String) : Option (Option Int) :=
  match cd with
  | none => some none
  | some d =>
    if d = "" then some none
    else
      match pyIntOfString (leadComp d) with
      | some n => some (some n)
      | none => none

/-- Python `int(cc) if cc else 0` wrapped in the surrounding try: `none`
is the raised ValueError, otherwise the citation count (0 by default). -/
def parseCitationCount (cc : Option String) : Option Int :=
  match cc with
  | none => some 0
  | some s => if s = "" then some 0 else pyIntOfString s

/- ### Stub normalizer: extract_from_search_result (getref.py 126-184) -/

/-- One author of the semicolon-delimited `author_names` string
(getref.py lines 154-171): the fragment is stripped; a comma splits it
into surname and given name, otherwise the last whitespace token is the
surname and the earlier tokens, joined by single spaces, the given name. -/
def parseAuthor (fragment : String) : Author :=
  let author_name := pyStrip fragment
  if pyContainsChar author_name ',' then
    let parts := pySplitChar ',' author_name
    { name := some author_name,
      surname := some (pyStrip (parts.headD "")),
      given_name := some (if 1 < parts.length then pyStrip (parts.getD 1 "") else ""),
      author_id := none,
      affiliation := none }
  else
    let parts := pyWordSplit author_name
    { name := some author_name,
      surname := some (parts.getLastD author_name),
      given_name := some (if 1 < parts.length then String.intercalate " " parts.dropLast else ""),
      author_id := none,
      affiliation := none }

/-- The authors list of the stub normalizer (getref.py lines 152-171):
empty when `author_names` is absent or falsy. -/
def searchAuthors (result : SearchResult) : List Author :=
  match result.author_names with
  | some s => if s = "" then [] else (pySplitChar ';' s).map parseAuthor
  | none => []

/-- The fallback Scopus lookup URL (getref.py line 179 and 232); a `None`
eid renders as the literal "None" inside the f-string. -/
def scopusFallbackUrl (eid : Option String) : String :=
  "https://www.scopus.com/record/display.uri?eid=" ++ fstr eid ++ "&origin=resultslist"

/-- URL selection (getref.py lines 176-179 and 232): the DOI resolver link
when the DOI is truthy, the fallback lookup link otherwise. -/
def recordUrl (doi eid : Option String) : String :=
  match doi with
  | some d => if d = "" then scopusFallbackUrl eid else "https://doi.org/" ++ d
  | none => scopusFallbackUrl eid

/-- getref.py lines 126-184, `extract_from_search_result`: builds a
BASIC-tier record from the stub; the surrounding `try` turns any raised
ValueError (from `int` on the cover date or the citation count) into
`None`. -/
def extract_from_search_result (result : SearchResult) : Option Record :=
  match parseYearOfCoverDate result.coverDate with
  | none => none
  | some year =>
    match parseCitationCount result.citedby_count with
    | none => none
    | some cites =>
      some { eid := result.eid,
             doi := result.doi,
             title := result.title,
             abstract := none,
             journal := result.publicationName,
             year := year,
             date := result.coverDate,
             volume := result.volume,
             issue := result.issueIdentifier,
             pages := result.pageRange,
             citation_count := cites,
             document_type := result.aggregationType,
             issn := result.issn,
             isbn := none,
             publisher := none,
             source_id := result.source_id,
             keywords := [],
             authors := searchAuthors result,
             url := recordUrl result.doi result.eid }

/- ### Detail fetcher: get_full_details (getref.py 187-238)

   The remote AbstractRetrieval call is modelled by an oracle value of
   type `Except PyExc FullResponse`: an `error` is any exception the call
   raises (404, network failure, timeout, malformed payload), an `ok` is
   the response object whose attributes the source then reads.  The bare
   `except:` at line 237 turns every raised exception — including a
   ValueError raised while parsing a malformed response — into `None`. -/

/-- The failure kinds of the FULL-tier remote call. -/
inductive PyExc
  | notFound
  | networkError
  | malformedResponse
  | timeout
deriving DecidableEq, Inhabited

/-- One author object of a FULL-tier AbstractRetrieval response
(attributes may each be None). -/
structure FullAuthor where
  given_name : Option String
  surname : Option String
  auid : Option String
  affiliation : Option String
deriving DecidableEq, Inhabited

/-- A FULL-tier AbstractRetrieval response: the attributes getref.py
reads, each possibly None. -/
structure FullResponse where
  authors : Option (List FullAuthor)
  authkeywords : Option String
  doi : Option String
  title : Option String
  abstract : Option String
  publicationName : Option String
  coverDate : Option String
  volume : Option String
  issueIdentifier : Option String
  pageRange : Option String
  citedby_count : Option String
  aggregationType : Option String
  issn : Option String
  isbn : Option String
  publisher : Option String
  source_id : Option String
deriving DecidableEq, Inhabited

/-- One FULL-tier author (getref.py lines 199-206): the display name is
"given_name surname" rendered by an f-string when given_name is truthy,
and the raw surname attribute otherwise. -/
def fullAuthorToAuthor (author : FullAuthor) : Author :=
  { name := match author.given_name with
            | some g => if g = "" then author.surname
                        else some (g ++ " " ++ fstr author.surname)
            | none => author.surname,
    surname := author.surname,
    given_name := author.given_name,
    author_id := author.auid,
    affiliation := author.affiliation }

/-- The FULL-tier authors list (getref.py lines 197-206): empty when the
response's authors attribute is None or the empty list. -/
def fullAuthors (abstract : FullResponse) : List Author :=
  match abstract.authors with
  | some l => if l.isEmpty then [] else l.map fullAuthorToAuthor
  | none => []

/-- The FULL-tier keywords (getref.py lines 209-211): the truthy raw
`authkeywords` string split at " | ", each fragment stripped; empty
fragments are kept. -/
def keywordsOfAuthkeywords (ak : Option String) : List String :=
  match ak with
  | none => []
  | some s => if s = "" then [] else (pySplitOn " | " s).map pyStrip

/-- getref.py lines 187-238, `get_full_details`: the FULL-tier fetch.
The oracle argument is the outcome of the AbstractRetrieval call; any
raised exception — either from the call itself or from parsing the cover
date or citation count of the response — is swallowed by the bare
`except:` and becomes `none`. -/
def get_full_details (eid : Option String) (fetch : Except PyExc FullResponse) :
    Option Record :=
  match fetch with
  | Except.error _ => none
  | Except.ok abstract =>
    match parseYearOfCoverDate abstract.coverDate with
    | none => none
    | some year =>
      match parseCitationCount abstract.citedby_count with
      | none => none
      | some cites =>
        some { eid := eid,
               doi := falsyToNone abstract.doi,
               title := abstract.title,
               abstract := falsyToNone abstract.abstract,
               journal := falsyToNone abstract.publicationName,
               year := year,
               date := falsyToNone abstract.coverDate,
               volume := falsyToNone abstract.volume,
               issue := falsyToNone abstract.issueIdentifier,
               pages := falsyToNone abstract.pageRange,
               authors := fullAuthors abstract,
               keywords := keywordsOfAuthkeywords abstract.authkeywords,
               citation_count := cites,
               document_type := falsyToNone abstract.aggregationType,
               issn := falsyToNone abstract.issn,
               isbn := falsyToNone abstract.isbn,
               publisher := falsyToNone abstract.publisher,
               source_id := falsyToNone abstract.source_id,
               url := recordUrl abstract.doi eid }

/- ### Reconciliation driver: search_and_download (getref.py 241-293) -/

/-- The driver's accumulated state: the publications list and the three
per-tier counters. -/
structure DriveResult where
  publications : List Record
  full_details_count : Nat
  search_only_count : Nat
  failed_count : Nat
deriving DecidableEq, Inhabited

/-- Python list slicing `l[:n]` (getref.py line 255): a non-negative bound
takes the first n entries (clamped at the length), a negative bound drops
that many entries from the end. -/
def pySliceTo (n : Int) (l : List α) : List α :=
  if 0 ≤ n then l.take n.toNat else l.take (l.length - (-n).toNat)

/-- The stub sequence the driver actually iterates (getref.py lines
254-255): `if limit: results = results[:limit]` — note that a limit of 0
is falsy in Python and therefore performs no truncation. -/
def attemptedStubs (limit : Option Int) (results : List SearchResult) :
    List SearchResult :=
  match limit with
  | none => results
  | some n => if n = 0 then results else pySliceTo n results

/-- One iteration of the driver loop (getref.py lines 264-281): try the
FULL tier, fall back to the stub normalizer, update exactly one counter. -/
def processStub (oracle : Option String → Except PyExc FullResponse)
    (acc : DriveResult) (result : SearchResult) : DriveResult :=
  match get_full_details result.eid (oracle result.eid) with
  | some details =>
    { acc with publications := acc.publications ++ [details],
               full_details_count := acc.full_details_count + 1 }
  | none =>
    match extract_from_search_result result with
    | some details =>
      { acc with publications := acc.publications ++ [details],
                 search_only_count := acc.search_only_count + 1 }
    | none => { acc with failed_count := acc.failed_count + 1 }

/-- getref.py lines 241-293, `search_and_download`, with the remote search
already resolved into the stub list `results` and the FULL-tier remote
behavior supplied by `oracle`. -/
def search_and_download (oracle : Option String → Except PyExc FullResponse)
    (results : List SearchResult) (limit : Option Int) : DriveResult :=
  (attemptedStubs limit results).foldl (processStub oracle)
    { publications := [], full_details_count := 0,
      search_only_count := 0, failed_count := 0 }

/- ### Aggregate reporter (analyze_refs.py) -/

/-- Python true division guarded by the interpreter: a zero denominator
raises ZeroDivisionError.  The quotient is modelled as a rational, which
agrees with the float division of the source on the question of whether
the division is performed at all. -/
def pyDivByLen (a : Rat) (b : Nat) : Except String Rat :=
  if b = 0 then Except.error "ZeroDivisionError" else Except.ok (a / (b : Rat))

/-- analyze_refs.py lines 63-70 (the data-completeness block of
`print_summary`): the three completeness percentages, each computed as
`100 * count / len(publications)` with no zero guard. -/
def completenessRatios (publications : List Record) :
    Except String (Rat × Rat × Rat) := do
  let withDoi := (publications.filter (fun p => truthyS p.doi)).length
  let withAbstract := (publications.filter (fun p => truthyS p.abstract)).length
  let withKeywords := (publications.filter (fun p => !p.keywords.isEmpty)).length
  let rDoi ← pyDivByLen (100 * withDoi) publications.length
  let rAbstract ← pyDivByLen (100 * withAbstract) publications.length
  let rKeywords ← pyDivByLen (100 * withKeywords) publications.length
  return (rDoi, rAbstract, rKeywords)

/-- analyze_refs.py line 60: the reported median citation count,
`sorted(citations)[len(citations)//2]` (the citations block only runs for
a nonempty list; `none` models the skipped block). -/
def medianCitations (citations : List Int) : Option Int :=
  if citations = [] then none
  else some ((List.insertionSort (fun a b => a ≤ b) citations).getD
              (citations.length / 2) 0)

/- ### BibTeX export: export_bibtex (analyze_refs.py 141-198) -/

/-- The surname component of the citation key (analyze_refs.py line 147):
"Unknown" for an empty authors list, otherwise the first author's surname
rendered by the f-string (None renders as "None"). -/
def bibtexFirstAuthor (pub : Record) : String :=
  match pub.authors with
  | [] => "Unknown"
  | a :: _ => fstr a.surname

/-- The year component of the citation key (analyze_refs.py line 148):
`pub['year'] if pub['year'] else 'nd'` rendered by the f-string — a None
or zero year is falsy and yields "nd". -/
def bibtexKeyYear (pub : Record) : String :=
  match pub.year with
  | some y => if y = 0 then "nd" else toString y
  | none => "nd"

/-- The BibTeX entry type (analyze_refs.py lines 152-158). -/
def bibtexEntryType (pub : Record) : String :=
  let doc_type := match pub.document_type with
    | some d => if d = "" then "article" else pyLower d
    | none => "article"
  if pyHasSub doc_type "conference" then "inproceedings"
  else if pyHasSub doc_type "book" then "book"
  else "article"

/-- An optional BibTeX body line (analyze_refs.py lines 163-186): emitted
only when the field is truthy. -/
def bibtexLine (field : String) (value : Option String) : String :=
  match value with
  | none => ""
  | some v => if v = "" then "" else "  " ++ field ++ " = \x7b" ++ v ++ "\x7d,\n"

/-- The year body line (analyze_refs.py lines 173-174): emitted only when
the year is truthy (non-None and nonzero). -/
def bibtexYearLine (year : Option Int) : String :=
  match year with
  | none => ""
  | some y => if y = 0 then "" else "  year = \x7b" ++ toString y ++ "\x7d,\n"

/-- The author body line (analyze_refs.py lines 166-168): absent for an
empty authors list; otherwise the `' and '.join` over the author names,
which raises a TypeError when some author's name is None — that exception
is not caught by the source, so it is surfaced as an `error`. -/
def bibtexAuthorLine (authors : List Author) : Except String String :=
  match authors with
  | [] => Except.ok ""
  | l =>
    if l.all (fun a => a.name.isSome) then
      Except.ok ("  author = \x7b" ++
        String.intercalate " and " (l.map (fun a => fstr a.name)) ++ "\x7d,\n")
    else Except.error "TypeError"

/-- One BibTeX entry (analyze_refs.py lines 145-189) for the publication
at 1-based index i: the head line with the citation key, the optional
body lines, and the closing brace. -/
def bibtexEntry (i : Nat) (pub : Record) : Except String String :=
  match bibtexAuthorLine pub.authors with
  | Except.error err => Except.error err
  | Except.ok authorLine =>
    Except.ok
      (("@" ++ bibtexEntryType pub ++ "\x7b" ++ bibtexFirstAuthor pub ++
          bibtexKeyYear pub ++ toString i ++ ",") ++
        ("\n" ++
         bibtexLine "title" pub.title ++
         authorLine ++
         bibtexLine "journal" pub.journal ++
         bibtexYearLine pub.year ++
         bibtexLine "volume" pub.volume ++
         bibtexLine "number" pub.issue ++
         bibtexLine "pages" pub.pages ++
         bibtexLine "doi" pub.doi ++
         "\x7d\n"))

/-- The entry list of export_bibtex (analyze_refs.py lines 143-189),
enumerating publications from 1 as the source does. -/
def exportBibtexFrom : Nat → List Record → Except String (List String)
  | _, [] => Except.ok []
  | i, p :: rest =>
    match bibtexEntry i p with
    | Except.error err => Except.error err
    | Except.ok e =>
      match exportBibtexFrom (i + 1) rest with
      | Except.error err => Except.error err
      | Except.ok es => Except.ok (e :: es)

/-- analyze_refs.py lines 141-198, `export_bibtex`, up to the final
serialization (the '\n'.join and the write are out of scope): the list of
emitted entries, one per publication. -/
def export_bibtex (publications : List Record) : Except String (List String) :=
  exportBibtexFrom 1 publications

/- ### Concrete inputs used by witnesses and counterexamples -/

/-- Prefix test on strings, through the character lists. -/
def strLeads (s pre : String) : Bool := leadsWith pre.data s.data

/-- A stub with every attribute None. -/
def stubZero : SearchResult := default

/-- A stub with an external id but a malformed cover date. -/
def stubC3 : SearchResult :=
  { stubZero with eid := some "2-s2.0-85001", coverDate := some "n.d." }

/-- A stub with no external id and no other attribute. -/
def stubC3b : SearchResult := stubZero

/-- A successful FULL-tier response whose raw keyword blob has an empty
fragment between two delimiters. -/
def respC4 : FullResponse := { (default : FullResponse) with
  authkeywords := some "alpha |  | beta" }

/-- A stub whose author-name string has a two-comma fragment with a
trailing space, and a comma-free multi-word fragment. -/
def stubC5 : SearchResult := { stubZero with
  author_names := some "Curie, Marie, Sklodowska ;van der Berg Jan" }

/-- A stub with an external id and a cover date whose leading component is
not an integer literal. -/
def stubC6 : SearchResult :=
  { stubZero with eid := some "2-s2.0-77951", coverDate := some "circa-2000" }

/-- A stub with an external id and no cover date at all. -/
def stubC6b : SearchResult := { stubZero with eid := some "2-s2.0-3" }

/-- A FULL-tier oracle that fails every fetch with a timeout. -/
def oracleFail : Option String → Except PyExc FullResponse :=
  fun _ => Except.error PyExc.timeout

/-- A publication record with an empty authors list (all other fields at
their defaults). -/
def recNA : Record := default

/-- The entry list export_bibtex emits for the single authorless record. -/
def entriesNA : List String := (export_bibtex [recNA]).toOption.getD []

/- ### Helper lemmas -/

/-- The stub normalizer fails exactly when one of its two `int` parses
raises. -/
lemma extract_eq_none_iff (stub : SearchResult) :
    extract_from_search_result stub = none ↔
      parseYearOfCoverDate stub.coverDate = none ∨
      parseCitationCount stub.citedby_count = none := by
  unfold extract_from_search_result
  cases hy : parseYearOfCoverDate stub.coverDate <;>
    cases hc : parseCitationCount stub.citedby_count <;> simp

/-- Field projections of a successfully normalized stub. -/
lemma extract_some_fields (stub : SearchResult) (rec : Record)
    (h : extract_from_search_result stub = some rec) :
    rec.eid = stub.eid ∧
    parseYearOfCoverDate stub.coverDate = some rec.year ∧
    rec.authors = searchAuthors stub := by
  unfold extract_from_search_result at h
  cases hy : parseYearOfCoverDate stub.coverDate with
  | none => rw [hy] at h; exact absurd h (by simp)
  | some year =>
    rw [hy] at h
    cases hc : parseCitationCount stub.citedby_count with
    | none => rw [hc] at h; exact absurd h (by simp)
    | some cites =>
      rw [hc] at h
      have hrec := Option.some.inj h
      subst hrec
      exact ⟨rfl, rfl, rfl⟩

/-- Field projections of a successful FULL-tier fetch. -/
lemma gfd_some_fields (eid : Option String) (resp : FullResponse) (rec : Record)
    (h : get_full_details eid (Except.ok resp) = some rec) :
    rec.keywords = keywordsOfAuthkeywords resp.authkeywords ∧
    parseYearOfCoverDate resp.coverDate = some rec.year := by
  simp only [get_full_details] at h
  cases hy : parseYearOfCoverDate resp.coverDate with
  | none => rw [hy] at h; exact absurd h (by simp)
  | some year =>
    rw [hy] at h
    cases hc : parseCitationCount resp.citedby_count with
    | none => rw [hc] at h; exact absurd h (by simp)
    | some cites =>
      rw [hc] at h
      have hrec := Option.some.inj h
      subst hrec
      exact ⟨rfl, rfl⟩

/-- The cover-date parse raises exactly for a truthy cover date whose
leading dash-component is not an integer literal. -/
lemma parseYear_none_iff (cd : Option String) :
    parseYearOfCoverDate cd = none ↔
      truthyS cd = true ∧ pyIntOfString (leadComp (cd.getD "")) = none := by
  cases cd with
  | none => simp [parseYearOfCoverDate, truthyS]
  | some d =>
    by_cases hd : d = ""
    · simp [parseYearOfCoverDate, truthyS, hd]
    · simp only [parseYearOfCoverDate, truthyS, Option.getD_some, if_neg hd]
      cases pyIntOfString (leadComp d) <;> simp [hd]

/-- The citation-count parse raises exactly for a truthy citation field
that is not an integer literal. -/
lemma parseCit_none_iff (cc : Option String) :
    parseCitationCount cc = none ↔
      truthyS cc = true ∧ pyIntOfString (cc.getD "") = none := by
  cases cc with
  | none => simp [parseCitationCount, truthyS]
  | some s =>
    by_cases hs : s = ""
    · simp [parseCitationCount, truthyS, hs]
    · simp only [parseCitationCount, truthyS, Option.getD_some, if_neg hs]
      cases pyIntOfString s <;> simp [hs]

/-- One driver step preserves the output-versus-counters balance. -/
lemma processStub_inv (oracle : Option String → Except PyExc FullResponse)
    (acc : DriveResult) (s : SearchResult)
    (h : acc.publications.length = acc.full_details_count + acc.search_only_count) :
    (processStub oracle acc s).publications.length =
      (processStub oracle acc s).full_details_count +
      (processStub oracle acc s).search_only_count := by
  unfold processStub
  cases get_full_details s.eid (oracle s.eid) with
  | some d => simp only [List.length_append, List.length_cons, List.length_nil]; omega
  | none =>
    cases extract_from_search_result s with
    | some d => simp only [List.length_append, List.length_cons, List.length_nil]; omega
    | none => simpa using h

/-- One driver step increments the counter total by exactly one. -/
lemma processStub_total (oracle : Option String → Except PyExc FullResponse)
    (acc : DriveResult) (s : SearchResult) :
    (processStub oracle acc s).full_details_count +
      (processStub oracle acc s).search_only_count +
      (processStub oracle acc s).failed_count =
      acc.full_details_count + acc.search_only_count + acc.failed_count + 1 := by
  unfold processStub
  cases get_full_details s.eid (oracle s.eid) with
  | some d => simp; omega
  | none =>
    cases extract_from_search_result s with
    | some d => simp; omega
    | none => simp; omega

/-- The output-versus-counters balance is a loop invariant of the driver. -/
lemma foldl_inv (oracle : Option String → Except PyExc FullResponse)
    (l : List SearchResult) : ∀ acc : DriveResult,
    acc.publications.length = acc.full_details_count + acc.search_only_count →
    (l.foldl (processStub oracle) acc).publications.length =
      (l.foldl (processStub oracle) acc).full_details_count +
      (l.foldl (processStub oracle) acc).search_only_count := by
  induction l with
  | nil => intro acc h; simpa using h
  | cons s rest ih =>
    intro acc h
    simp only [List.foldl_cons]
    exact ih _ (processStub_inv oracle acc s h)

/-- The driver's counter total grows by exactly the number of stubs folded. -/
lemma foldl_total (oracle : Option String → Except PyExc FullResponse)
    (l : List SearchResult) : ∀ acc : DriveResult,
    (l.foldl (processStub oracle) acc).full_details_count +
      (l.foldl (processStub oracle) acc).search_only_count +
      (l.foldl (processStub oracle) acc).failed_count =
      acc.full_details_count + acc.search_only_count + acc.failed_count + l.length := by
  induction l with
  | nil => intro acc; simp
  | cons s rest ih =>
    intro acc
    simp only [List.foldl_cons, List.length_cons]
    rw [ih (processStub oracle acc s), processStub_total oracle acc s]
    omega

/-- A list leads its own append. -/
lemma leadsWith_append (l m : List Char) : leadsWith l (l ++ m) = true := by
  induction l with
  | nil => rfl
  | cons a as ih => simp [leadsWith, ih]

/-- A string leads its own append. -/
lemma strLeads_append (a b : String) : strLeads (a ++ b) a = true := by
  unfold strLeads
  rw [String.data_append]
  exact leadsWith_append a.data b.data

/-- Shape of a successful export: one entry per publication, the k-th
entry produced by `bibtexEntry` at 1-based index i + k. -/
lemma exportFrom_ok (pubs : List Record) :
    ∀ (i : Nat) (entries : List String),
    exportBibtexFrom i pubs = Except.ok entries →
    entries.length = pubs.length ∧
    ∀ k pub, pubs.get? k = some pub →
      ∃ e, entries.get? k = some e ∧ bibtexEntry (i + k) pub = Except.ok e := by
  induction pubs with
  | nil =>
    intro i entries h
    simp only [exportBibtexFrom] at h
    have := Except.ok.inj h
    subst this
    exact ⟨rfl, by intro k pub hk; simp at hk⟩
  | cons p rest ih =>
    intro i entries h
    simp only [exportBibtexFrom] at h
    cases he : bibtexEntry i p with
    | error err => rw [he] at h; exact absurd h (by simp)
    | ok e =>
      rw [he] at h
      cases hes : exportBibtexFrom (i + 1) rest with
      | error err => rw [hes] at h; exact absurd h (by simp)
      | ok es =>
        rw [hes] at h
        have hent := Except.ok.inj h
        subst hent
        obtain ⟨hlen, hget⟩ := ih (i + 1) es hes
        refine ⟨by simp [hlen], ?_⟩
        intro k pub hk
        cases k with
        | zero =>
          simp only [List.get?] at hk
          have hp := Option.some.inj hk
          subst hp
          exact ⟨e, rfl, by simpa using he⟩
        | succ k =>
          simp only [List.get?] at hk
          obtain ⟨e2, he2, hb2⟩ := hget k pub hk
          refine ⟨e2, by simpa using he2, ?_⟩
          have harith : i + (k + 1) = i + 1 + k := by omega
          rw [harith]
          exact hb2

/- ### Claim theorems -/

/-- C1: for every stub sequence processed by the reconciliation driver
(search_and_download), the number of emitted records equals
full_details_count + search_only_count, and full_details_count +
search_only_count + failed_count equals the number of stubs actually
attempted (the sequence after any cap truncation). -/
theorem c1_driver_counts (oracle : Option String → Except PyExc FullResponse)
    (results : List SearchResult) (limit : Option Int) :
    (search_and_download oracle results limit).publications.length =
      (search_and_download oracle results limit).full_details_count +
      (search_and_download oracle results limit).search_only_count ∧
    (search_and_download oracle results limit).full_details_count +
      (search_and_download oracle results limit).search_only_count +
      (search_and_download oracle results limit).failed_count =
      (attemptedStubs limit results).length := by
  unfold search_and_download
  constructor
  · exact foldl_inv oracle (attemptedStubs limit results) _ (by simp)
  · have h := foldl_total oracle (attemptedStubs limit results)
      { publications := [], full_details_count := 0,
        search_only_count := 0, failed_count := 0 }
    simpa using h

/-- C2: on the empty publication list the completeness block of
print_summary does not report three 0% ratios — the very first ratio
raises ZeroDivisionError (analyze_refs.py line 68 divides by
len(publications) with no guard). -/
theorem c2_zero_division :
    completenessRatios [] = Except.error "ZeroDivisionError" := rfl

/-- C7: for every non-empty citation list, the reported median
(analyze_refs.py line 60) is the element at index floor(n/2) of the
ascending-sorted list; stated against any sorted permutation of the
input. -/
theorem c7_median (citations s : List Int) (h1 : citations ≠ [])
    (h2 : List.Perm s citations)
    (h3 : List.Sorted (fun a b : Int => a ≤ b) s) :
    medianCitations citations = some (s.getD (citations.length / 2) 0) := by
  have hsort : List.insertionSort (fun a b : Int => a ≤ b) citations = s :=
    List.eq_of_perm_of_sorted ((List.perm_insertionSort _ _).trans h2.symm)
      (List.sorted_insertionSort _ _) h3
  unfold medianCitations
  rw [if_neg h1, hsort]

/-- C7 witness: citations [1,3,5,7] give median 5, the value at index 2 of
the sorted list, not the textbook even-length median 4. -/
theorem c7_median_witness : medianCitations [1, 3, 5, 7] = some 5 := by
  have h := c7_median [1, 3, 5, 7] [1, 3, 5, 7] (by decide)
    (List.Perm.refl _) (by decide)
  simpa using h

/-- C8 counterexample: a supplied cap of 0 with one stub available is not
truncated at all — Python `if limit:` treats 0 as no cap, so 1 stub is
attempted where the claim demands 0. -/
theorem c8_counterexample :
    attemptedStubs (some 0) [stubZero] = [stubZero] ∧
    ([stubZero] : List SearchResult).length ≠ Int.toNat 0 := by decide

/-- C8 amended: when a positive result cap N is supplied and more than N
stubs are available, the stub sequence is truncated to its first N
entries before processing, so exactly N identifiers are attempted (a cap
of 0 is falsy in Python and performs no truncation). -/
theorem c8_amended (n : Int) (results : List SearchResult)
    (h1 : 1 ≤ n) (h2 : n.toNat < results.length) :
    attemptedStubs (some n) results = results.take n.toNat ∧
    (attemptedStubs (some n) results).length = n.toNat := by
  have hn0 : n ≠ 0 := by omega
  have hpos : (0 : Int) ≤ n := by omega
  simp only [attemptedStubs, pySliceTo, if_neg hn0, if_pos hpos]
  refine ⟨trivial, ?_⟩
  rw [List.length_take]
  omega

/-- C8 amended witness: cap 5 with 10 available stubs attempts exactly the
first 5. -/
theorem c8_amended_witness :
    attemptedStubs (some 5) (List.replicate 10 stubZero) =
      (List.replicate 10 stubZero).take (Int.toNat 5) ∧
    (attemptedStubs (some 5) (List.replicate 10 stubZero)).length =
      Int.toNat 5 := by
  exact c8_amended 5 (List.replicate 10 stubZero) (by decide) (by decide)

/-- C3 counterexample: the stub normalizer does not return None exactly
when the external id is missing — a stub WITH an external id but a
malformed cover date yields None, and a stub WITHOUT an external id still
yields a Record. -/
theorem c3_counterexample :
    extract_from_search_result stubC3 = none ∧
    stubC3.eid = some "2-s2.0-85001" ∧
    extract_from_search_result stubC3b ≠ none ∧
    stubC3b.eid = none := by decide

/-- C3 amended: extract_from_search_result returns None exactly when one
of its two int() parses raises — a truthy cover date whose leading
dash-component is not an integer literal, or a truthy citation field that
is not an integer literal; the external id plays no role, and a stub that
normalizes keeps its (possibly missing) external id in the Record. -/
theorem c3_amended (stub : SearchResult) :
    (extract_from_search_result stub = none ↔
      (truthyS stub.coverDate = true ∧
        pyIntOfString (leadComp (stub.coverDate.getD "")) = none) ∨
      (truthyS stub.citedby_count = true ∧
        pyIntOfString (stub.citedby_count.getD "") = none)) ∧
    (∀ rec : Record, extract_from_search_result stub = some rec →
      rec.eid = stub.eid) := by
  constructor
  · rw [extract_eq_none_iff, parseYear_none_iff, parseCit_none_iff]
  · intro rec h
    exact (extract_some_fields stub rec h).1

/-- C3 amended witness: a stub with an external id and the malformed cover
date "n.d." is rejected by the normalizer. -/
theorem c3_amended_witness : extract_from_search_result stubC3 = none := by
  exact (c3_amended stubC3).1.mpr (Or.inl (by decide))

/-- C6 counterexample: a stub with a malformed cover date ("circa-2000")
does not yield a Record with year = null — the normalizer returns None
and the identifier produces no Record at all. -/
theorem c6_counterexample :
    extract_from_search_result stubC6 = none ∧
    stubC6.coverDate = some "circa-2000" ∧
    stubC6.eid = some "2-s2.0-77951" := by decide

/-- C6 amended: the Record's year is the integer value of the leading
dash-separated component of the cover date (of any length, not
specifically 4 digits) when that component parses as an integer; an
absent or empty cover date yields year = null with the Record still
produced; a non-integer leading component makes the whole normalization
fail, so no Record is produced. -/
theorem c6_amended (stub : SearchResult) :
    (truthyS stub.coverDate = false →
      ∀ rec : Record, extract_from_search_result stub = some rec →
        rec.year = none) ∧
    (∀ (d : String) (n : Int), stub.coverDate = some d → d ≠ "" →
      pyIntOfString (leadComp d) = some n →
      ∀ rec : Record, extract_from_search_result stub = some rec →
        rec.year = some n) ∧
    (∀ d : String, stub.coverDate = some d → d ≠ "" →
      pyIntOfString (leadComp d) = none →
      extract_from_search_result stub = none) := by
  refine ⟨?_, ?_, ?_⟩
  · intro hfalsy rec h
    have hy := (extract_some_fields stub rec h).2.1
    cases hcd : stub.coverDate with
    | none =>
      rw [hcd] at hy
      simp [parseYearOfCoverDate] at hy
      exact hy.symm
    | some d =>
      rw [hcd] at hfalsy
      simp only [truthyS, bne_eq_false_iff_eq] at hfalsy
      rw [hcd, hfalsy] at hy
      simp [parseYearOfCoverDate] at hy
      exact hy.symm
  · intro d n hcd hd hn rec h
    have hy := (extract_some_fields stub rec h).2.1
    rw [hcd] at hy
    simp only [parseYearOfCoverDate, if_neg hd, hn] at hy
    exact (Option.some.inj hy).symm
  · intro d hcd hd hn
    rw [extract_eq_none_iff]
    left
    rw [hcd]
    simp only [parseYearOfCoverDate, if_neg hd, hn]

/-- C6 amended witness: a stub with an external id and no cover date still
normalizes, to a Record whose year is null. -/
theorem c6_amended_witness :
    ((extract_from_search_result stubC6b).getD default).year = none := by
  exact (c6_amended stubC6b).1 (by decide) _ rfl

/-- C4 counterexample: a successful FULL-tier fetch whose truthy raw
keyword field is "alpha |  | beta" yields the keywords list
["alpha", "", "beta"] — the empty-string entry between the delimiters is
NOT dropped. -/
theorem c4_counterexample :
    (get_full_details (some "2-s2.0-1") (Except.ok respC4)).map Record.keywords =
      some ["alpha", "", "beta"] ∧
    "" ∈ ["alpha", "", "beta"] ∧
    truthyS respC4.authkeywords = true := by decide

/-- C4 amended: for every FULL-tier fetch that succeeds with a truthy raw
keyword field, the Record's keywords list consists of the " | "-separated
fragments each trimmed of surrounding whitespace, with empty-string
entries retained. -/
theorem c4_amended (eid : Option String) (resp : FullResponse) (rec : Record)
    (raw : String)
    (h1 : resp.authkeywords = some raw) (h2 : raw ≠ "")
    (h3 : get_full_details eid (Except.ok resp) = some rec) :
    rec.keywords = (pySplitOn " | " raw).map pyStrip := by
  have hk := (gfd_some_fields eid resp rec h3).1
  rw [hk, h1]
  simp [keywordsOfAuthkeywords, h2]

/-- C4 amended witness: the concrete response respC4 yields exactly the
split-and-trimmed fragments, empty entry included. -/
theorem c4_amended_witness :
    ((get_full_details (some "2-s2.0-1") (Except.ok respC4)).getD default).keywords =
      (pySplitOn " | " "alpha |  | beta").map pyStrip := by
  exact c4_amended (some "2-s2.0-1") respC4 _ "alpha |  | beta" rfl (by decide) rfl

/-- C9: whenever the FULL-tier remote call fails with any failure kind
(not found, network error, malformed response, timeout), get_full_details
returns the failure value None — no exception reaches the driver, whose
step then falls back to the stub normalizer; and a fetch whose successful
payload has a malformed cover date equally yields None. -/
theorem c9_fetch_failure_fallback
    (oracle : Option String → Except PyExc FullResponse)
    (acc : DriveResult) (stub : SearchResult) (e : PyExc)
    (h : oracle stub.eid = Except.error e) :
    get_full_details stub.eid (oracle stub.eid) = none ∧
    processStub oracle acc stub =
      (match extract_from_search_result stub with
       | some details =>
         { acc with publications := acc.publications ++ [details],
                    search_only_count := acc.search_only_count + 1 }
       | none => { acc with failed_count := acc.failed_count + 1 }) ∧
    (∀ (eid : Option String) (resp : FullResponse),
      parseYearOfCoverDate resp.coverDate = none →
      get_full_details eid (Except.ok resp) = none) := by
  have hg : get_full_details stub.eid (oracle stub.eid) = none := by
    rw [h]; rfl
  refine ⟨hg, ?_, ?_⟩
  · unfold processStub
    rw [hg]
  · intro eid resp hy
    simp only [get_full_details, hy]

/-- C9 witness: a timing-out oracle on the all-None stub makes the driver
step fall back to the BASIC tier — the stub normalizes, so the basic
counter becomes 1 and nothing is counted as a FULL success. -/
theorem c9_witness :
    get_full_details stubZero.eid (oracleFail stubZero.eid) = none ∧
    (processStub oracleFail
      { publications := [], full_details_count := 0,
        search_only_count := 0, failed_count := 0 } stubZero).search_only_count = 1 := by
  have h := c9_fetch_failure_fallback oracleFail
    { publications := [], full_details_count := 0,
      search_only_count := 0, failed_count := 0 } stubZero PyExc.timeout rfl
  refine ⟨h.1, ?_⟩
  rw [h.2.1]
  decide

/-- C5 counterexample: for the author-name string
"Curie, Marie, Sklodowska ;van der Berg Jan" the second raw fragment is
untrimmed (" ..." is impossible here, the first fragment carries the
trailing space): the produced displayName "Curie, Marie, Sklodowska" is
the TRIMMED fragment, not the original fragment
"Curie, Marie, Sklodowska ", and the givenName is only the segment
between the first and second comma ("Marie"), not the whole part after
the first comma ("Marie, Sklodowska"). -/
theorem c5_counterexample :
    pySplitChar ';' "Curie, Marie, Sklodowska ;van der Berg Jan" =
      ["Curie, Marie, Sklodowska ", "van der Berg Jan"] ∧
    (extract_from_search_result stubC5).map
        (fun r => r.authors.map (fun a => (a.name, a.surname, a.given_name))) =
      some [(some "Curie, Marie, Sklodowska", some "Curie", some "Marie"),
            (some "van der Berg Jan", some "Jan", some "van der Berg")] ∧
    (some "Curie, Marie, Sklodowska" : Option String) ≠
      some "Curie, Marie, Sklodowska " ∧
    (some "Marie" : Option String) ≠ some "Marie, Sklodowska" := by decide

/-- C5 amended: the Record's authors are the semicolon fragments of the
name string mapped through the per-fragment parser, and for every
fragment: displayName is the TRIMMED fragment; a fragment whose trimmed
form contains a comma yields surname = the trimmed part before the first
comma and givenName = the trimmed segment between the first and second
comma; a comma-free fragment yields surname = the final whitespace token
(the whole trimmed fragment when there is none) and givenName = the
earlier tokens joined by single spaces. -/
theorem c5_amended (stub : SearchResult) (raw : String) (rec : Record)
    (h1 : stub.author_names = some raw) (h2 : raw ≠ "")
    (h3 : extract_from_search_result stub = some rec) :
    rec.authors = (pySplitChar ';' raw).map parseAuthor ∧
    ∀ fragment : String,
      (parseAuthor fragment).name = some (pyStrip fragment) ∧
      (pyContainsChar (pyStrip fragment) ',' = true →
        (parseAuthor fragment).surname =
          some (pyStrip ((pySplitChar ',' (pyStrip fragment)).headD "")) ∧
        (parseAuthor fragment).given_name =
          some (if 1 < (pySplitChar ',' (pyStrip fragment)).length
                then pyStrip ((pySplitChar ',' (pyStrip fragment)).getD 1 "")
                else "")) ∧
      (pyContainsChar (pyStrip fragment) ',' = false →
        (parseAuthor fragment).surname =
          some ((pyWordSplit (pyStrip fragment)).getLastD (pyStrip fragment)) ∧
        (parseAuthor fragment).given_name =
          some (if 1 < (pyWordSplit (pyStrip fragment)).length
                then String.intercalate " " (pyWordSplit (pyStrip fragment)).dropLast
                else "")) := by
  constructor
  · have ha := (extract_some_fields stub rec h3).2.2
    rw [ha]
    simp [searchAuthors, h1, h2]
  · intro fragment
    by_cases hc : pyContainsChar (pyStrip fragment) ','
    · simp [parseAuthor, hc]
    · simp [parseAuthor, hc]

/-- C5 amended witness: the authors of the concrete stub stubC5 are
exactly the semicolon fragments mapped through the per-fragment parser. -/
theorem c5_amended_witness :
    ((extract_from_search_result stubC5).getD default).authors =
      (pySplitChar ';' "Curie, Marie, Sklodowska ;van der Berg Jan").map
        parseAuthor := by
  exact (c5_amended stubC5 "Curie, Marie, Sklodowska ;van der Berg Jan" _
    rfl (by decide) rfl).1

/-- C10: in the BibTeX export, an authorless publication is still emitted
(one entry per publication in a successful export), and its entry's head
is "@" followed by the entry type, an opening brace, the literal
"Unknown", the year component (or "nd"), the 1-based index, and the comma
of the head line. -/
theorem c10_bibtex_unknown (pubs : List Record) (entries : List String)
    (k : Nat) (pub : Record)
    (h1 : export_bibtex pubs = Except.ok entries)
    (h2 : pubs.get? k = some pub) (h3 : pub.authors = []) :
    entries.length = pubs.length ∧
    strLeads (entries.getD k "")
      ("@" ++ bibtexEntryType pub ++ "\x7b" ++ "Unknown" ++ bibtexKeyYear pub ++
        toString (k + 1) ++ ",") = true := by
  obtain ⟨hlen, hget⟩ := exportFrom_ok pubs 1 entries h1
  refine ⟨hlen, ?_⟩
  obtain ⟨e, hke, hentry⟩ := hget k pub h2
  have hgd : entries.getD k "" = e := by
    rw [List.getD_eq_getElem?_getD, ← List.get?_eq_getElem?, hke]
    rfl
  have hfa : bibtexFirstAuthor pub = "Unknown" := by
    simp [bibtexFirstAuthor, h3]
  have hal : bibtexAuthorLine pub.authors = Except.ok "" := by
    rw [h3]
    rfl
  simp only [bibtexEntry, hal] at hentry
  have he := Except.ok.inj hentry
  have harith : 1 + k = k + 1 := by omega
  rw [hgd, ← he, hfa, harith]
  exact strLeads_append _ _

/-- C10 witness: exporting the single authorless default record emits one
entry whose head starts with "@article", an opening brace, "Unknownnd"
and the index 1. -/
theorem c10_witness :
    entriesNA.length = 1 ∧
    strLeads (entriesNA.getD 0 "")
      ("@" ++ bibtexEntryType recNA ++ "\x7b" ++ "Unknown" ++
        bibtexKeyYear recNA ++ toString (0 + 1) ++ ",") = true := by
  have h := c10_bibtex_unknown [recNA] entriesNA 0 recNA rfl rfl rfl
  exact ⟨h.1, h.2⟩
